import Mathlib

/-!
Shallow embedding of `front_end/panels/issues/CorsIssueDetailsView.ts`
(Chromium DevTools frontend).  The view maps a group of CORS issue
records to a table: one header row whose column titles are selected by
the issue subtype, then one data row per record.  DOM mutation is
modelled by returning the list of appended rows (each a list of cells);
the fatal `throw new Error('Invalid Argument')` / unhandled-variant
assertion paths are modelled by `Option` (`none` = fatal error).
-/

namespace UIStrings

def warning : String := "warning"

def blocked : String := "blocked"

def status : String := "Status"

def request : String := "Request"

def resourceAddressSpace : String := "Resource Address"

def initiatorAddressSpace : String := "Initiator Address"

def secure : String := "secure"

def insecure : String := "insecure"

def initiatorContext : String := "Initiator Context"

def preflightRequestIfProblematic : String := "Preflight Request (if problematic)"

def preflightRequest : String := "Preflight Request"

def header : String := "Header"

def problem : String := "Problem"

def invalidValue : String := "Invalid Value (if available)"

def problemMissingHeader : String := "Missing Header"

def problemMultipleValues : String := "Multiple Values"

def problemInvalidValue : String := "Invalid Value"

def preflightDisallowedRedirect : String := "Response to preflight was a redirect"

def preflightInvalidStatus : String := "HTTP status of preflight request didn\x27t indicate success"

def allowedOrigin : String := "Allowed Origin (from header)"

def allowCredentialsValueFromHeader : String := "`Access-Control-Allow-Credentials` Header Value"

def disallowedRequestMethod : String := "Disallowed Request Method"

def disallowedRequestHeader : String := "Disallowed Request Header"

end UIStrings

/-- Modelled from the spec: `Protocol.Network.CorsError` is an external
protocol enumeration of error kinds (its definition is not part of this
source file).  The ten members the view names appear as constructors;
every other member of the enumeration is represented by `otherError`
carrying its textual enum value. -/
inductive CorsError where
  | InvalidAllowHeadersPreflightResponse
  | InvalidAllowMethodsPreflightResponse
  | PreflightMissingAllowOriginHeader
  | PreflightMultipleAllowOriginValues
  | PreflightInvalidAllowOriginValue
  | MissingAllowOriginHeader
  | MultipleAllowOriginValues
  | InvalidAllowOriginValue
  | PreflightInvalidStatus
  | PreflightDisallowedRedirect
  | otherError (value : String)
  deriving DecidableEq, Repr

/-- The textual enum value of a `CorsError` (in the protocol, each enum
member is the string spelling of its name; `corsError.includes(...)` in
the source inspects this string). -/
def CorsError.value : CorsError → String
  | .InvalidAllowHeadersPreflightResponse => "InvalidAllowHeadersPreflightResponse"
  | .InvalidAllowMethodsPreflightResponse => "InvalidAllowMethodsPreflightResponse"
  | .PreflightMissingAllowOriginHeader => "PreflightMissingAllowOriginHeader"
  | .PreflightMultipleAllowOriginValues => "PreflightMultipleAllowOriginValues"
  | .PreflightInvalidAllowOriginValue => "PreflightInvalidAllowOriginValue"
  | .MissingAllowOriginHeader => "MissingAllowOriginHeader"
  | .MultipleAllowOriginValues => "MultipleAllowOriginValues"
  | .InvalidAllowOriginValue => "InvalidAllowOriginValue"
  | .PreflightInvalidStatus => "PreflightInvalidStatus"
  | .PreflightDisallowedRedirect => "PreflightDisallowedRedirect"
  | .otherError s => s

/-- JavaScript substring containment, `s.includes(pat)`. -/
def strIncludes (s pat : String) : Bool :=
  s.toList.tails.any fun t => pat.toList.isPrefixOf t

/-- Modelled from the spec: `IssuesManager.CorsIssue.IssueCode` is the
external issue-subtype enumeration; the view names exactly these
fifteen members (ten handled, five asserted unreachable). -/
inductive IssueCode where
  | InvalidHeaderValues
  | WildcardOriginNotAllowed
  | PreflightResponseInvalid
  | OriginMismatch
  | AllowCredentialsRequired
  | InsecurePrivateNetwork
  | InsecurePrivateNetworkPreflight
  | MethodDisallowedByPreflightResponse
  | HeaderDisallowedByPreflightResponse
  | RedirectContainsCredentials
  | DisallowedByMode
  | CorsDisabledScheme
  | PreflightMissingAllowExternal
  | PreflightInvalidAllowExternal
  | InvalidResponse
  deriving DecidableEq, Repr

/-- Modelled from the spec: `Protocol.Network.ClientSecurityState`
(external protocol structure); the view reads its
`initiatorIPAddressSpace` and `initiatorIsSecureContext` fields. -/
structure ClientSecurityState where
  initiatorIPAddressSpace : String
  initiatorIsSecureContext : Bool
  deriving DecidableEq, Repr

/-- Modelled from the spec: `Protocol.Network.CorsErrorStatus` (external
protocol structure): an error-kind tag plus the failed parameter. -/
structure CorsErrorStatus where
  corsError : CorsError
  failedParameter : String
  deriving DecidableEq, Repr

/-- Modelled from the spec: the `IssueDetails` record the view consumes
via `issue.details()`.  The associated request is abstracted to a string
identifier. -/
structure CorsIssueDetails where
  request : String
  isWarning : Bool
  corsErrorStatus : CorsErrorStatus
  initiatorOrigin : Option String
  resourceIPAddressSpace : Option String
  clientSecurityState : Option ClientSecurityState
  deriving DecidableEq, Repr

/-- Modelled from the spec: `IssuesManager.CorsIssue.CorsIssue` as the
view consumes it: `issue.code()` and `issue.details()`. -/
structure CorsIssue where
  code : IssueCode
  details : CorsIssueDetails
  deriving DecidableEq, Repr

/-- A table cell appended to a row: a column title (`appendColumnTitle`),
a request-link cell (`createRequestCell`), or a text cell with an
optional style class (`appendIssueDetailCell` / the status cell). -/
inductive Cell where
  | title (text : String)
  | requestLink (request : String) (linkToPreflight : Bool)
  | detail (text : String) (cls : Option String)
  deriving DecidableEq, Repr

/-- Embeds `createRequestCell(details.request, ...)`, with the
link-to-preflight option as a flag. -/
def createRequestCell (request : String) (linkToPreflight : Bool) : Cell :=
  Cell.requestLink request linkToPreflight

/-- Embeds `appendIssueDetailCell(element, text, className?)`. -/
def appendIssueDetailCell (text : String) (cls : Option String) : Cell :=
  Cell.detail text cls

/-- Embeds `appendStatus`: a status cell reading "warning" (report-only style)
or "blocked" (blocked style). -/
def appendStatus (isWarning : Bool) : Cell :=
  if isWarning then
    Cell.detail UIStrings.warning (some "affected-resource-report-only-status")
  else
    Cell.detail UIStrings.blocked (some "affected-resource-blocked-status")

/-- Embeds `appendSecureContextCell`: empty cell for `undefined`, else
"secure" / "insecure" by the flag. -/
def appendSecureContextCell (isSecureContext : Option Bool) : Cell :=
  match isSecureContext with
  | none => appendIssueDetailCell "" none
  | some b =>
      appendIssueDetailCell (if b then UIStrings.secure else UIStrings.insecure) none

/-- Embeds `CorsIssueDetailsView.getHeaderFromError`; the final
`throw new Error('Invalid Argument')` is `none`. -/
def getHeaderFromError (corsError : CorsError) : Option String :=
  match corsError with
  | .InvalidAllowHeadersPreflightResponse => some "Access-Control-Allow-Headers"
  | .InvalidAllowMethodsPreflightResponse => some "Access-Control-Allow-Methods"
  | .PreflightMissingAllowOriginHeader
  | .PreflightMultipleAllowOriginValues
  | .PreflightInvalidAllowOriginValue
  | .MissingAllowOriginHeader
  | .MultipleAllowOriginValues
  | .InvalidAllowOriginValue => some "Access-Control-Allow-Origin"
  | _ => none

/-- Embeds `CorsIssueDetailsView.getProblemFromError`; the final
`throw new Error('Invalid Argument')` is `none`. -/
def getProblemFromError (corsErrorStatus : CorsErrorStatus) : Option String :=
  match corsErrorStatus.corsError with
  | .InvalidAllowHeadersPreflightResponse
  | .InvalidAllowMethodsPreflightResponse
  | .PreflightInvalidAllowOriginValue
  | .InvalidAllowOriginValue => some UIStrings.problemInvalidValue
  | .PreflightMultipleAllowOriginValues
  | .MultipleAllowOriginValues => some UIStrings.problemMultipleValues
  | .MissingAllowOriginHeader
  | .PreflightMissingAllowOriginHeader => some UIStrings.problemMissingHeader
  | .PreflightInvalidStatus => some UIStrings.preflightInvalidStatus
  | .PreflightDisallowedRedirect => some UIStrings.preflightDisallowedRedirect
  | _ => none

/-- Modelled from the spec: `Platform.assertUnhandled` at a dispatch
default is a fatal "unhandled variant" assertion (a programmer error,
not recoverable); its implementation lives outside this source file.
Modelled as `none` (abort). -/
def assertUnhandled {α : Type} : Option α :=
  none

/-- The header-row construction of `appendDetails`: the universal
Request and Status column titles, then subtype-selected extra titles;
the dispatch default is the fatal unhandled-variant assertion. -/
def appendDetailsHeader (issueCode : IssueCode) : Option (List Cell) :=
  let base := [Cell.title UIStrings.request, Cell.title UIStrings.status]
  match issueCode with
  | .InvalidHeaderValues =>
      some (base ++ [Cell.title UIStrings.preflightRequestIfProblematic,
        Cell.title UIStrings.header, Cell.title UIStrings.problem,
        Cell.title UIStrings.invalidValue])
  | .WildcardOriginNotAllowed =>
      some (base ++ [Cell.title UIStrings.preflightRequestIfProblematic])
  | .PreflightResponseInvalid =>
      some (base ++ [Cell.title UIStrings.preflightRequest, Cell.title UIStrings.problem])
  | .OriginMismatch =>
      some (base ++ [Cell.title UIStrings.preflightRequestIfProblematic,
        Cell.title UIStrings.initiatorContext, Cell.title UIStrings.allowedOrigin])
  | .AllowCredentialsRequired =>
      some (base ++ [Cell.title UIStrings.preflightRequestIfProblematic,
        Cell.title UIStrings.allowCredentialsValueFromHeader])
  | .InsecurePrivateNetwork | .InsecurePrivateNetworkPreflight =>
      some (base ++ [Cell.title UIStrings.resourceAddressSpace,
        Cell.title UIStrings.initiatorAddressSpace, Cell.title UIStrings.initiatorContext])
  | .MethodDisallowedByPreflightResponse =>
      some (base ++ [Cell.title UIStrings.preflightRequest,
        Cell.title UIStrings.disallowedRequestMethod])
  | .HeaderDisallowedByPreflightResponse =>
      some (base ++ [Cell.title UIStrings.preflightRequest,
        Cell.title UIStrings.disallowedRequestHeader])
  | .RedirectContainsCredentials => some base
  | _ => assertUnhandled

/-- Embeds `appendDetail`: one data row for one issue record.  First the
request-link cell and the status cell, then subtype-selected cells;
`none` when a fatal path is reached (unmapped error kind in
`getHeaderFromError` / `getProblemFromError`, or the unhandled-variant
dispatch default). -/
def appendDetail (issueCode : IssueCode) (issue : CorsIssue) : Option (List Cell) :=
  let details := issue.details
  let base := [createRequestCell details.request false, appendStatus details.isWarning]
  let corsError := details.corsErrorStatus.corsError
  match issueCode with
  | .InvalidHeaderValues => do
      let preflightCell :=
        if strIncludes corsError.value "Preflight" then
          createRequestCell details.request true
        else
          appendIssueDetailCell "" none
      let headerText ← getHeaderFromError corsError
      let problemText ← getProblemFromError details.corsErrorStatus
      some (base ++ [preflightCell,
        appendIssueDetailCell headerText (some "code-example"),
        appendIssueDetailCell problemText none,
        appendIssueDetailCell details.corsErrorStatus.failedParameter (some "code-example")])
  | .WildcardOriginNotAllowed =>
      some (base ++ [if strIncludes corsError.value "Preflight" then
          createRequestCell details.request true
        else
          appendIssueDetailCell "" none])
  | .PreflightResponseInvalid => do
      let problemText ← getProblemFromError details.corsErrorStatus
      some (base ++ [createRequestCell details.request true,
        appendIssueDetailCell problemText none])
  | .OriginMismatch =>
      some (base ++ [(if strIncludes corsError.value "Preflight" then
          createRequestCell details.request true
        else
          appendIssueDetailCell "" none),
        appendIssueDetailCell (details.initiatorOrigin.getD "") (some "code-example"),
        appendIssueDetailCell details.corsErrorStatus.failedParameter (some "code-example")])
  | .AllowCredentialsRequired =>
      some (base ++ [(if strIncludes corsError.value "Preflight" then
          createRequestCell details.request true
        else
          appendIssueDetailCell "" none),
        appendIssueDetailCell details.corsErrorStatus.failedParameter (some "code-example")])
  | .InsecurePrivateNetwork | .InsecurePrivateNetworkPreflight =>
      some (base ++ [appendIssueDetailCell (details.resourceIPAddressSpace.getD "") none,
        appendIssueDetailCell
          ((details.clientSecurityState.map ClientSecurityState.initiatorIPAddressSpace).getD "") none,
        appendSecureContextCell
          (details.clientSecurityState.map ClientSecurityState.initiatorIsSecureContext)])
  | .MethodDisallowedByPreflightResponse =>
      some (base ++ [createRequestCell details.request true,
        appendIssueDetailCell details.corsErrorStatus.failedParameter (some "code-example")])
  | .HeaderDisallowedByPreflightResponse =>
      some (base ++ [createRequestCell details.request true,
        appendIssueDetailCell details.corsErrorStatus.failedParameter (some "code-example")])
  | .RedirectContainsCredentials => some base
  | _ => assertUnhandled

/-- The record-iteration loop of `appendDetails`: one data row per
record via `appendDetail`, counting the records as it goes. -/
def appendDetailRows (issueCode : IssueCode) :
    List CorsIssue → Option (List (List Cell) × Nat)
  | [] => some ([], 0)
  | issue :: rest => do
      let row ← appendDetail issueCode issue
      let (rows, n) ← appendDetailRows issueCode rest
      some (row :: rows, n + 1)

/-- The outcome of a render: the rows appended to the container (header
first) and the count reported to `updateAffectedResourceCount`. -/
structure RenderResult where
  rows : List (List Cell)
  count : Nat
  deriving DecidableEq, Repr

/-- Embeds `appendDetails`: header row by subtype, one data row per record,
then the record count is reported. -/
def appendDetails (issueCode : IssueCode) (issues : List CorsIssue) : Option RenderResult := do
  let headerRow ← appendDetailsHeader issueCode
  let (dataRows, count) ← appendDetailRows issueCode issues
  some ⟨headerRow :: dataRows, count⟩

/-- Embeds `update`: clears prior rendered content (the `prior` rows are
discarded), then — if the record set is non-empty — renders via
`appendDetails` using the code of the first record in iteration order;
otherwise reports count 0 with nothing appended. -/
def update (prior : List (List Cell)) (issues : List CorsIssue) : Option RenderResult :=
  match issues with
  | [] => some ⟨[], 0⟩
  | first :: rest => appendDetails first.code (first :: rest)

/-- A concrete issue-details record used by witnesses. -/
def sampleDetails : CorsIssueDetails :=
  ⟨"req", false, ⟨CorsError.MissingAllowOriginHeader, "p"⟩, none, none, none⟩

/-- A concrete issue record of the RedirectContainsCredentials subtype. -/
def sampleIssue : CorsIssue :=
  ⟨IssueCode.RedirectContainsCredentials, sampleDetails⟩

/-- The eight error kinds mapped by `getHeaderFromError`. -/
def headerMappedKinds : List CorsError :=
  [CorsError.InvalidAllowHeadersPreflightResponse,
   CorsError.InvalidAllowMethodsPreflightResponse,
   CorsError.PreflightMissingAllowOriginHeader,
   CorsError.PreflightMultipleAllowOriginValues,
   CorsError.PreflightInvalidAllowOriginValue,
   CorsError.MissingAllowOriginHeader,
   CorsError.MultipleAllowOriginValues,
   CorsError.InvalidAllowOriginValue]

/-- The ten error kinds mapped by `getProblemFromError`. -/
def problemMappedKinds : List CorsError :=
  headerMappedKinds ++ [CorsError.PreflightInvalidStatus, CorsError.PreflightDisallowedRedirect]

/-- The five fixed phrases `getProblemFromError` can return. -/
def problemPhrases : List String :=
  [UIStrings.problemInvalidValue, UIStrings.problemMultipleValues,
   UIStrings.problemMissingHeader, UIStrings.preflightInvalidStatus,
   UIStrings.preflightDisallowedRedirect]

/-- C3: a render invocation first clears prior rendered content (its
outcome never depends on previously rendered rows), and on an empty
record collection it reports count 0 and appends no rows, neither
header nor data. -/
theorem update_clears_and_empty_zero :
    (∀ (prior pOther : List (List Cell)) (issues : List CorsIssue),
      update prior issues = update pOther issues) ∧
    (∀ prior : List (List Cell), update prior [] = some ⟨[], 0⟩) :=
  ⟨fun _ _ _ => rfl, fun _ => rfl⟩

/-- C4: for each of the five issue subtypes outside the ten handled
cases, building the header row and building a data row both reach the
dispatch default and abort fatally instead of completing normally. -/
theorem unhandled_codes_fatal :
    (appendDetailsHeader IssueCode.DisallowedByMode = none ∧
      ∀ i, appendDetail IssueCode.DisallowedByMode i = none) ∧
    (appendDetailsHeader IssueCode.CorsDisabledScheme = none ∧
      ∀ i, appendDetail IssueCode.CorsDisabledScheme i = none) ∧
    (appendDetailsHeader IssueCode.PreflightMissingAllowExternal = none ∧
      ∀ i, appendDetail IssueCode.PreflightMissingAllowExternal i = none) ∧
    (appendDetailsHeader IssueCode.PreflightInvalidAllowExternal = none ∧
      ∀ i, appendDetail IssueCode.PreflightInvalidAllowExternal i = none) ∧
    (appendDetailsHeader IssueCode.InvalidResponse = none ∧
      ∀ i, appendDetail IssueCode.InvalidResponse i = none) :=
  ⟨⟨rfl, fun _ => rfl⟩, ⟨rfl, fun _ => rfl⟩, ⟨rfl, fun _ => rfl⟩,
   ⟨rfl, fun _ => rfl⟩, ⟨rfl, fun _ => rfl⟩⟩

/-- C5: `getHeaderFromError` maps `InvalidAllowHeadersPreflightResponse`
to "Access-Control-Allow-Headers", `InvalidAllowMethodsPreflightResponse`
to "Access-Control-Allow-Methods", the remaining six mapped kinds
(including `MissingAllowOriginHeader`) to "Access-Control-Allow-Origin",
and fails fatally exactly on inputs outside those eight kinds. -/
theorem getHeaderFromError_spec :
    getHeaderFromError CorsError.InvalidAllowHeadersPreflightResponse =
      some "Access-Control-Allow-Headers" ∧
    getHeaderFromError CorsError.InvalidAllowMethodsPreflightResponse =
      some "Access-Control-Allow-Methods" ∧
    getHeaderFromError CorsError.PreflightMissingAllowOriginHeader =
      some "Access-Control-Allow-Origin" ∧
    getHeaderFromError CorsError.PreflightMultipleAllowOriginValues =
      some "Access-Control-Allow-Origin" ∧
    getHeaderFromError CorsError.PreflightInvalidAllowOriginValue =
      some "Access-Control-Allow-Origin" ∧
    getHeaderFromError CorsError.MissingAllowOriginHeader =
      some "Access-Control-Allow-Origin" ∧
    getHeaderFromError CorsError.MultipleAllowOriginValues =
      some "Access-Control-Allow-Origin" ∧
    getHeaderFromError CorsError.InvalidAllowOriginValue =
      some "Access-Control-Allow-Origin" ∧
    (∀ e : CorsError, getHeaderFromError e = none ↔ e ∉ headerMappedKinds) := by
  refine ⟨rfl, rfl, rfl, rfl, rfl, rfl, rfl, rfl, fun e => ?_⟩
  cases e <;> simp [getHeaderFromError, headerMappedKinds]

/-- C6: `getProblemFromError` yields the redirect-specific phrase on
`PreflightDisallowedRedirect`, every value it returns is one of the five
fixed phrases, and it reaches the fatal path exactly on error kinds
outside the ten mapped kinds. -/
theorem getProblemFromError_spec :
    (∀ p : String, getProblemFromError ⟨CorsError.PreflightDisallowedRedirect, p⟩ =
      some UIStrings.preflightDisallowedRedirect) ∧
    (∀ (s : CorsErrorStatus) (v : String),
      getProblemFromError s = some v → v ∈ problemPhrases) ∧
    (∀ s : CorsErrorStatus, getProblemFromError s = none ↔ s.corsError ∉ problemMappedKinds) := by
  refine ⟨fun _ => rfl, fun s v h => ?_, fun s => ?_⟩
  · obtain ⟨e, p⟩ := s
    cases e <;> simp [getProblemFromError] at h <;> simp [problemPhrases, ← h]
  · obtain ⟨e, p⟩ := s
    cases e <;> simp [getProblemFromError, problemMappedKinds, headerMappedKinds]

/-- Witness for C6 at the concrete kind `MissingAllowOriginHeader`. -/
theorem getProblemFromError_spec_witness :
    getProblemFromError ⟨CorsError.MissingAllowOriginHeader, "p"⟩ =
      some UIStrings.problemMissingHeader ∧
    UIStrings.problemMissingHeader ∈ problemPhrases :=
  ⟨rfl, getProblemFromError_spec.2.1 ⟨CorsError.MissingAllowOriginHeader, "p"⟩
    UIStrings.problemMissingHeader rfl⟩

/-- C9: every error kind accepted by `getHeaderFromError` is accepted by
`getProblemFromError`, so for an InvalidHeaderValues record whose
header-name lookup succeeds the problem-text fatal branch is
unreachable and the whole data row renders. -/
theorem header_domain_subset_problem_domain :
    (∀ (e : CorsError) (p : String), (getHeaderFromError e).isSome = true →
      (getProblemFromError ⟨e, p⟩).isSome = true) ∧
    (∀ issue : CorsIssue,
      (getHeaderFromError issue.details.corsErrorStatus.corsError).isSome = true →
      (appendDetail IssueCode.InvalidHeaderValues issue).isSome = true) := by
  constructor
  · intro e p h
    cases e <;> simp [getHeaderFromError, getProblemFromError] at h ⊢
  · intro issue h
    obtain ⟨c, req, w, ⟨e, p⟩, orig, ra, css⟩ := issue
    cases e <;> simp [getHeaderFromError] at h <;> rfl

/-- Witness for C9 at the concrete kind `MissingAllowOriginHeader`. -/
theorem header_domain_subset_problem_domain_witness :
    (getProblemFromError ⟨CorsError.MissingAllowOriginHeader, "p"⟩).isSome = true :=
  header_domain_subset_problem_domain.1 CorsError.MissingAllowOriginHeader "p" rfl

/-- C1: for every issue subtype handled by the dispatch, the header row
and every successfully rendered data row have the same number of cells
(Request and Status columns included). -/
theorem header_cols_eq_row_cols
    (issueCode : IssueCode) (issue : CorsIssue) (hdr row : List Cell)
    (hh : appendDetailsHeader issueCode = some hdr)
    (hr : appendDetail issueCode issue = some row) :
    hdr.length = row.length := by
  obtain ⟨c, req, w, ⟨e, p⟩, orig, ra, css⟩ := issue
  cases issueCode <;> cases e <;>
    simp_all [appendDetailsHeader, appendDetail, getHeaderFromError, getProblemFromError,
      assertUnhandled] <;>
    subst hh <;> subst hr <;> rfl

/-- Witness for C1 at the RedirectContainsCredentials subtype. -/
theorem header_cols_eq_row_cols_witness :
    ([Cell.title UIStrings.request, Cell.title UIStrings.status] : List Cell).length =
      ([createRequestCell "req" false, appendStatus false] : List Cell).length :=
  header_cols_eq_row_cols IssueCode.RedirectContainsCredentials sampleIssue _ _ rfl rfl

/-- The record-iteration loop yields one row per record and counts the
records. -/
theorem appendDetailRows_length (c : IssueCode) :
    ∀ (l : List CorsIssue) (rows : List (List Cell)) (n : Nat),
      appendDetailRows c l = some (rows, n) → rows.length = l.length ∧ n = l.length := by
  intro l
  induction l with
  | nil =>
      intro rows n h
      simp only [appendDetailRows, Option.some.injEq, Prod.mk.injEq] at h
      simp [← h.1, ← h.2]
  | cons i rest ih =>
      intro rows n h
      rcases hdet : appendDetail c i with _ | row <;>
        rcases hrest : appendDetailRows c rest with _ | ⟨rs, m⟩ <;>
          simp only [appendDetailRows, hdet, hrest, Option.none_bind, Option.some_bind] at h <;>
          try exact Option.noConfusion h
      obtain ⟨hq1, hq2⟩ := Prod.mk.injEq .. ▸ Option.some.inj h
      obtain ⟨h1, h2⟩ := ih rs m hrest
      simp [← hq1, ← hq2, h1, h2]

/-- C2: a completed render of a non-empty record collection reports the
number of records to the external counter and appends exactly one
header row (built from the first record's subtype) followed by exactly
one data row per record. -/
theorem update_nonempty_counts
    (prior : List (List Cell)) (first : CorsIssue) (rest : List CorsIssue)
    (res : RenderResult) (h : update prior (first :: rest) = some res) :
    res.count = (first :: rest).length ∧
    ∃ hdr dataRows, appendDetailsHeader first.code = some hdr ∧
      res.rows = hdr :: dataRows ∧ dataRows.length = (first :: rest).length := by
  rcases hh : appendDetailsHeader first.code with _ | hdr <;>
    rcases hr : appendDetailRows first.code (first :: rest) with _ | ⟨rows, n⟩ <;>
      simp only [update, appendDetails, hh, hr, Option.none_bind, Option.some_bind] at h <;>
      try exact Option.noConfusion h
  have hx := Option.some.inj h
  subst hx
  obtain ⟨h1, h2⟩ := appendDetailRows_length first.code (first :: rest) rows n hr
  exact ⟨h2, hdr, rows, rfl, rfl, h1⟩

/-- Witness for C2: one RedirectContainsCredentials record renders a
header row plus one data row and reports count 1. -/
theorem update_nonempty_counts_witness :
    (RenderResult.mk
      [[Cell.title UIStrings.request, Cell.title UIStrings.status],
       [createRequestCell "req" false, appendStatus false]] 1).count =
        ([sampleIssue] : List CorsIssue).length ∧
    ∃ hdr dataRows, appendDetailsHeader sampleIssue.code = some hdr ∧
      (RenderResult.mk
        [[Cell.title UIStrings.request, Cell.title UIStrings.status],
         [createRequestCell "req" false, appendStatus false]] 1).rows = hdr :: dataRows ∧
      dataRows.length = ([sampleIssue] : List CorsIssue).length :=
  update_nonempty_counts [] sampleIssue []
    ⟨[[Cell.title UIStrings.request, Cell.title UIStrings.status],
      [createRequestCell "req" false, appendStatus false]], 1⟩ rfl

/-- C7: under the four subtypes whose table entry is
"preflight-link-or-blank", the third cell of a rendered data row is the
preflight-linked request cell exactly when the error kind's textual
value contains the substring "Preflight", and an empty cell
otherwise. -/
theorem preflight_link_or_blank_spec
    (c : IssueCode) (issue : CorsIssue) (row : List Cell)
    (hc : c = IssueCode.InvalidHeaderValues ∨ c = IssueCode.WildcardOriginNotAllowed ∨
      c = IssueCode.OriginMismatch ∨ c = IssueCode.AllowCredentialsRequired)
    (hr : appendDetail c issue = some row) :
    row.get? 2 =
      some (if strIncludes issue.details.corsErrorStatus.corsError.value "Preflight" then
        createRequestCell issue.details.request true
      else
        appendIssueDetailCell "" none) := by
  obtain ⟨ci, req, w, ⟨e, p⟩, orig, ra, css⟩ := issue
  rcases hc with rfl | rfl | rfl | rfl <;>
    rcases hget : getHeaderFromError e with _ | ht <;>
      rcases hprob : getProblemFromError ⟨e, p⟩ with _ | pt <;>
        simp only [appendDetail, hget, hprob, Option.none_bind, Option.some_bind] at hr <;>
        try exact Option.noConfusion hr
  all_goals obtain rfl := Option.some.inj hr
  all_goals rfl

/-- Witness for C7: a WildcardOriginNotAllowed record whose error kind
value contains "Preflight" gets a preflight-linked third cell. -/
theorem preflight_link_or_blank_witness :
    ([createRequestCell "req" false, appendStatus true,
      createRequestCell "req" true] : List Cell).get? 2 =
      some (if strIncludes (CorsError.otherError "PreflightWildcardOriginNotAllowed").value
          "Preflight" then
        createRequestCell "req" true
      else
        appendIssueDetailCell "" none) :=
  preflight_link_or_blank_spec IssueCode.WildcardOriginNotAllowed
    ⟨IssueCode.WildcardOriginNotAllowed,
      ⟨"req", true, ⟨CorsError.otherError "PreflightWildcardOriginNotAllowed", "p"⟩,
        none, none, none⟩⟩ _
    (Or.inr (Or.inl rfl)) rfl

/-- C8: under InsecurePrivateNetwork or InsecurePrivateNetworkPreflight,
the fifth cell of the data row (third extra cell) reads "secure" when
the initiator secure-context flag is true, "insecure" when it is false,
and is empty when the flag is absent. -/
theorem secure_context_cell_spec
    (c : IssueCode) (issue : CorsIssue) (row : List Cell)
    (hc : c = IssueCode.InsecurePrivateNetwork ∨ c = IssueCode.InsecurePrivateNetworkPreflight)
    (hr : appendDetail c issue = some row) :
    row.get? 4 =
      some (appendIssueDetailCell
        (match issue.details.clientSecurityState with
          | none => ""
          | some s => if s.initiatorIsSecureContext then "secure" else "insecure") none) := by
  obtain ⟨ci, req, w, ⟨e, p⟩, orig, ra, css⟩ := issue
  rcases hc with rfl | rfl <;>
    simp only [appendDetail] at hr <;>
    obtain rfl := Option.some.inj hr <;>
    cases css <;>
    simp [appendSecureContextCell, appendIssueDetailCell, UIStrings.secure, UIStrings.insecure]

/-- Witness for C8: a secure initiator context renders "secure" in the
fifth cell. -/
theorem secure_context_cell_witness :
    ([createRequestCell "req" false, appendStatus false,
      appendIssueDetailCell "Public" none, appendIssueDetailCell "Local" none,
      appendIssueDetailCell "secure" none] : List Cell).get? 4 =
      some (appendIssueDetailCell
        (match (some (ClientSecurityState.mk "Local" true) : Option ClientSecurityState) with
          | none => ""
          | some s => if s.initiatorIsSecureContext then "secure" else "insecure") none) :=
  secure_context_cell_spec IssueCode.InsecurePrivateNetwork
    ⟨IssueCode.InsecurePrivateNetwork,
      ⟨"req", false, ⟨CorsError.otherError "InsecurePrivateNetwork", "p"⟩,
        none, some "Public", some ⟨"Local", true⟩⟩⟩ _
    (Or.inl rfl) rfl

/-- A data row depends only on the record's details, not on the
record's own subtype tag. -/
theorem appendDetail_eq_of_details_eq (c : IssueCode) (i j : CorsIssue)
    (h : i.details = j.details) : appendDetail c i = appendDetail c j := by
  obtain ⟨ci, di⟩ := i
  obtain ⟨cj, dj⟩ := j
  have hd : di = dj := h
  subst hd
  cases c <;> rfl

/-- The row loop depends only on the records' details lists. -/
theorem appendDetailRows_eq_of_details_eq (c : IssueCode) :
    ∀ (l lOther : List CorsIssue),
      l.map CorsIssue.details = lOther.map CorsIssue.details →
      appendDetailRows c l = appendDetailRows c lOther := by
  intro l
  induction l with
  | nil =>
      intro lOther h
      cases lOther with
      | nil => rfl
      | cons j rest => simp at h
  | cons i rest ih =>
      intro lOther h
      cases lOther with
      | nil => simp at h
      | cons j rest' =>
          simp only [List.map_cons, List.cons.injEq] at h
          simp only [appendDetailRows]
          rw [appendDetail_eq_of_details_eq c i j h.1, ih rest' h.2]

/-- C10: the render entry point takes no subtype parameter: with a
non-empty collection it renders via the first record's subtype, and the
outcome is unchanged if later records carry any other subtype tags (it
depends only on their details). -/
theorem update_uses_first_code
    (prior : List (List Cell)) (first : CorsIssue) (rest : List CorsIssue)
    (res : RenderResult) (h : update prior (first :: rest) = some res) :
    appendDetails first.code (first :: rest) = some res ∧
    ∀ rest' : List CorsIssue,
      rest'.map CorsIssue.details = rest.map CorsIssue.details →
      update prior (first :: rest') = some res := by
  refine ⟨h, fun rest' hd => ?_⟩
  have heq : appendDetailRows first.code (first :: rest') =
      appendDetailRows first.code (first :: rest) :=
    appendDetailRows_eq_of_details_eq first.code (first :: rest') (first :: rest)
      (by simp [hd])
  have h2 : appendDetails first.code (first :: rest') =
      appendDetails first.code (first :: rest) := by
    simp only [appendDetails, heq]
  exact h2.trans h

/-- Witness for C10: swapping the second record's subtype tag (while
keeping its details) leaves the rendered outcome unchanged. -/
theorem update_uses_first_code_witness :
    update [] [sampleIssue, CorsIssue.mk IssueCode.DisallowedByMode sampleDetails] =
      some (RenderResult.mk
        [[Cell.title UIStrings.request, Cell.title UIStrings.status],
         [createRequestCell "req" false, appendStatus false],
         [createRequestCell "req" false, appendStatus false]] 2) :=
  (update_uses_first_code [] sampleIssue [CorsIssue.mk IssueCode.InvalidResponse sampleDetails]
    ⟨[[Cell.title UIStrings.request, Cell.title UIStrings.status],
      [createRequestCell "req" false, appendStatus false],
      [createRequestCell "req" false, appendStatus false]], 2⟩ rfl).2
    [CorsIssue.mk IssueCode.DisallowedByMode sampleDetails] rfl
